import Mathlib

/-!
Verification of `gpt4all-chat/cmake/sign_dmg.py`.

The script is a linear pipeline: validate identity options, mount the input
DMG at a fresh temporary mount point, copy its contents into a second
temporary directory, detach, locate the first `.app` entry, codesign it,
optionally verify (codesign `--verify` and spctl), repackage with
`hdiutil create`, and remove both temporary directories.

We embed the script shallowly: the external world (tool exit statuses,
captured tool output as bytes, the directory listing seen by `os.listdir`)
is an explicit environment, and a run produces the ordered trace of
observable actions (prints, directory creations, external-tool invocations,
recursive deletions) together with a process outcome.
-/

namespace SignDmg

/-- Python truthiness of an `Optional[str]`: `None` and the empty string are
falsy, every other string is truthy. -/
def pyTruthy : Option String → Bool
  | none => false
  | some s => s != ""

/-- Python `a or b` on `Optional[str]` values: yields `a` when `a` is truthy,
otherwise `b` (which may itself be `None`). Models `sha1_hash or
signing_identity` in the script. -/
def pyOr (a b : Option String) : Option String :=
  if pyTruthy a then a else b

/-- `os.path.join` for two components, as used in the script (the first
component returned by `tempfile.mkdtemp` has no trailing slash). -/
def pjoin (a b : String) : String := a ++ "/" ++ b

/-- `os.path.basename`: the part of the path after the last `/`. -/
def basename (p : String) : String :=
  String.mk (p.toList.foldl (fun acc c => if c = '/' then [] else acc ++ [c]) [])

/-- Index of the last occurrence of `c`, if any. -/
def lastIdxOf (c : Char) : List Char → Option Nat
  | [] => none
  | x :: xs =>
    match lastIdxOf c xs with
    | some i => some (i + 1)
    | none => if x = c then some 0 else none

/-- `os.path.splitext(s)[0]` for a string with no path separator (the script
only applies it to a basename): everything before the last dot, except that a
name whose characters before the last dot are all dots has no extension. -/
def splitextRoot (s : String) : String :=
  let l := s.toList
  match lastIdxOf '.' l with
  | none => s
  | some i => if (l.take i).all (fun c => c = '.') then s else String.mk (l.take i)

/-- Python `str.endswith`. -/
def strEndsWith (s suffix : String) : Bool :=
  suffix.toList.isSuffixOf s.toList

/-- A Python value that can sit in `CompletedProcess.stdout`: a `str`, or
`bytes` when the process was run with `capture_output=True` and no text mode. -/
inductive PyObj
  | str (s : String)
  | bytes (b : List Nat)
deriving DecidableEq, Repr

/-- A single match step of the regular expressions built by the script
(`f"{app_bundle}: valid"` / `f"{app_bundle}: accepted"`), whose only
metacharacter is the dot: a dot matches any character. -/
def charMatch (p c : Char) : Bool := p = '.' || p = c

/-- Does the pattern match a prefix of the target? -/
def matchHere : List Char → List Char → Bool
  | [], _ => true
  | _ :: _, [] => false
  | p :: ps, c :: cs => charMatch p c && matchHere ps cs

/-- Does the pattern match anywhere in the target? -/
def searchList (pat : List Char) : List Char → Bool
  | [] => matchHere pat []
  | c :: cs => matchHere pat (c :: cs) || searchList pat cs

/-- `re.search` with a `str` pattern over a `str` target, for the dot-only
patterns the script builds. -/
def regexDotSearch (pattern s : String) : Bool :=
  searchList pattern.toList s.toList

/-- `re.search(pattern, target)` with a `str` pattern: on a `str` target it
searches; on a `bytes` target CPython raises
`TypeError: cannot use a string pattern on a bytes-like object`. -/
def reSearch (pattern : String) (target : PyObj) : Except String Bool :=
  match target with
  | .str s => .ok (regexDotSearch pattern s)
  | .bytes _ => .error "TypeError"

/-- Python list repr of a list of strings, e.g. `['a', 'b']`. -/
def pyReprList (l : List String) : String :=
  "[" ++ String.intercalate ", " (l.map (fun s => "\x27" ++ s ++ "\x27")) ++ "]"

/-- `str` of a `subprocess.CalledProcessError` for a non-negative return
code: `Command '<cmd>' returned non-zero exit status <n>.` -/
def cpeStr (cmd : List String) (returncode : Nat) : String :=
  "Command \x27" ++ pyReprList cmd ++ "\x27 returned non-zero exit status " ++
    toString returncode ++ "."

/-- The external world a single run of the script observes: the command-line
options, the paths handed out by the two `tempfile.mkdtemp()` calls, the exit
status of each external tool invocation, the captured byte output of the two
verification tools, and the entries `os.listdir` reports in the copied
contents directory. -/
structure Env where
  input_dmg : String
  output_dmg : String
  sha1_hash : Option String
  signing_identity : Option String
  verify : Bool
  mountPoint : String
  tempDir : String
  attachExit : Nat
  detachExit : Nat
  listing : List String
  codesignExit : Nat
  codeVerExit : Nat
  codeVerStdout : List Nat
  spctlExit : Nat
  spctlStdout : List Nat
  createExit : Nat
deriving Repr

/-- Observable actions of a run, in order. -/
inductive Event
  | print (msg : String)
  | mkdtemp (path : String)
  | run (args : List String)
  | copytree (src dst : String)
  | rmtree (path : String)
deriving DecidableEq, Repr

/-- How the process terminates: `exited n` via `exit(n)` or a normal return
(exit status `n`); `crashed exc` via an uncaught Python exception, which
aborts the process with a traceback and a non-zero exit status. -/
inductive Outcome
  | exited (code : Nat)
  | crashed (exc : String)
deriving DecidableEq, Repr

/-- Does this outcome terminate the process with a non-zero status? -/
def Outcome.nonzero : Outcome → Bool
  | .exited n => n != 0
  | .crashed _ => true

/-- Argument vector of `hdiutil attach`. -/
def attachArgs (env : Env) : List String :=
  ["hdiutil", "attach", env.input_dmg, "-mountpoint", env.mountPoint]

/-- Argument vector of `hdiutil detach`. -/
def detachArgs (env : Env) : List String :=
  ["hdiutil", "detach", env.mountPoint]

/-- Argument vector of the signing `codesign` invocation. -/
def signArgs (identity app_bundle : String) : List String :=
  ["codesign", "--deep", "--force", "--verbose", "--options", "runtime",
   "--timestamp", "--sign", identity, app_bundle]

/-- Argument vector of the verifying `codesign` invocation. -/
def codesignVerifyArgs (app_bundle : String) : List String :=
  ["codesign", "--deep", "--verify", "--verbose=2", "--strict", app_bundle]

/-- Argument vector of the `spctl` policy check. -/
def spctlArgs (app_bundle : String) : List String :=
  ["spctl", "-a", "-t", "exec", "-vv", app_bundle]

/-- Argument vector of `hdiutil create`: volume name is the input image's
basename with its extension stripped, source folder is the copied contents,
`-ov` overwrites any existing output file, `UDZO` is the compressed
read-only format. -/
def createArgs (env : Env) : List String :=
  ["hdiutil", "create", "-volname", splitextRoot (basename env.input_dmg),
   "-srcfolder", pjoin env.tempDir "contents", "-ov", "-format", "UDZO",
   env.output_dmg]

/-- The `.app` bundle the locator loop selects: the first entry of
`os.listdir(temp_dir/contents)` whose name ends with `.app`, joined onto the
contents directory. -/
def locatedBundle (env : Env) : Option String :=
  (env.listing.find? (fun item => strEndsWith item ".app")).map
    (fun item => pjoin (pjoin env.tempDir "contents") item)

/-- Events of the run up to and including `hdiutil detach`. -/
def mountEvents (env : Env) : List Event :=
  [Event.mkdtemp env.mountPoint,
   Event.run (attachArgs env),
   Event.mkdtemp env.tempDir,
   Event.copytree env.mountPoint (pjoin env.tempDir "contents"),
   Event.run (detachArgs env)]

/-- Tail of the run from the `spctl` policy check onward, given the events
accumulated so far. Reached only if the `codesign --verify` text match
succeeded. -/
def spctlPhase (env : Env) (acc : List Event) (app_bundle : String) :
    List Event × Outcome :=
  let pArgs := spctlArgs app_bundle
  if env.spctlExit ≠ 0 then
    (acc ++ [Event.run pArgs,
             Event.print ("Error during spctl validation: " ++
               cpeStr pArgs env.spctlExit),
             Event.rmtree env.tempDir, Event.rmtree env.mountPoint],
     Outcome.exited 1)
  else
    match reSearch (app_bundle ++ ": accepted") (PyObj.bytes env.spctlStdout) with
    | .error exc => (acc ++ [Event.run pArgs], Outcome.crashed exc)
    | .ok false => (acc ++ [Event.run pArgs], Outcome.crashed "RuntimeError")
    | .ok true => (acc ++ [Event.run pArgs,
                           Event.run (createArgs env),
                           Event.rmtree env.tempDir,
                           Event.rmtree env.mountPoint],
                   Outcome.exited 0)

/-- The whole script, `sign_dmg`: the ordered trace of observable actions and
the process outcome. Mirrors the source line by line; `subprocess.run` calls
with `check=True` raise `CalledProcessError` on a non-zero exit (caught by the
surrounding `except subprocess.CalledProcessError`), the two verification
calls capture stdout as `bytes`, and exceptions other than
`CalledProcessError` (the `TypeError` from `re.search`, the `RuntimeError`
raised on a text mismatch) escape the handlers and crash the process. -/
def sign_dmg (env : Env) : List Event × Outcome :=
  if ¬ pyTruthy env.signing_identity ∧ ¬ pyTruthy env.sha1_hash then
    ([Event.print "Error: Either --signing-identity or --sha1-hash must be provided."],
     Outcome.exited 1)
  else
    match locatedBundle env with
    | none =>
        (mountEvents env ++ [Event.print "No .app bundle found in the DMG."],
         Outcome.exited 1)
    | some app_bundle =>
      match pyOr env.sha1_hash env.signing_identity with
      | none => (mountEvents env, Outcome.crashed "TypeError")
      | some identity =>
        let sArgs := signArgs identity app_bundle
        if env.codesignExit ≠ 0 then
          (mountEvents env ++
             [Event.run sArgs,
              Event.print ("Error during codesign: " ++ cpeStr sArgs env.codesignExit),
              Event.rmtree env.tempDir, Event.rmtree env.mountPoint],
           Outcome.exited 1)
        else
          let afterSign := mountEvents env ++ [Event.run sArgs]
          if env.verify then
            let vArgs := codesignVerifyArgs app_bundle
            if env.codeVerExit ≠ 0 then
              (afterSign ++
                 [Event.run vArgs,
                  Event.print ("Error during codesign validation: " ++
                    cpeStr vArgs env.codeVerExit),
                  Event.rmtree env.tempDir, Event.rmtree env.mountPoint],
               Outcome.exited 1)
            else
              match reSearch (app_bundle ++ ": valid")
                  (PyObj.bytes env.codeVerStdout) with
              | .error exc => (afterSign ++ [Event.run vArgs], Outcome.crashed exc)
              | .ok false => (afterSign ++ [Event.run vArgs], Outcome.crashed "RuntimeError")
              | .ok true => spctlPhase env (afterSign ++ [Event.run vArgs]) app_bundle
          else
            (afterSign ++
               [Event.run (createArgs env),
                Event.rmtree env.tempDir, Event.rmtree env.mountPoint],
             Outcome.exited 0)

/-- At least one identity selector was given (the script's validation guard
passes). -/
def identityGiven (env : Env) : Prop :=
  pyTruthy env.signing_identity = true ∨ pyTruthy env.sha1_hash = true

instance (env : Env) : Decidable (identityGiven env) := by
  unfold identityGiven; infer_instance

/-- Is this event a `shutil.rmtree`? -/
def Event.isRmtree : Event → Bool
  | .rmtree _ => true
  | _ => false

/-- Is this event an `hdiutil create` invocation (the step that writes the
output image)? -/
def Event.isCreateRun : Event → Bool
  | .run args => args.take 2 == ["hdiutil", "create"]
  | _ => false

/-- Is this event an `spctl` invocation (the policy check)? -/
def Event.isSpctlRun : Event → Bool
  | .run args => args.head? == some "spctl"
  | _ => false

/-- Is this event a `print`? -/
def Event.isPrint : Event → Bool
  | .print _ => true
  | _ => false

/-- The path a signing `codesign` invocation targets (a `codesign` call
carrying `--sign` signs its last argument); `none` for every other event. -/
def Event.signedTarget : Event → Option String
  | .run args =>
      if args.head? == some "codesign" && args.contains "--sign" then
        args.getLast?
      else none
  | _ => none

/-- Bytes of an ASCII string, as Python would capture them on stdout. -/
def asciiBytes (s : String) : List Nat :=
  s.toList.map (fun c => c.toNat)

/-- A baseline run: fingerprint given, one `.app` entry among the copied
contents, every tool succeeding, no verification requested. -/
def envBase : Env :=
  { input_dmg := "/in/input.dmg", output_dmg := "/out/output.dmg",
    sha1_hash := some "ABCD", signing_identity := none, verify := false,
    mountPoint := "/tmp/m", tempDir := "/tmp/t",
    attachExit := 0, detachExit := 0,
    listing := ["README", "App.app"],
    codesignExit := 0, codeVerExit := 0, codeVerStdout := [],
    spctlExit := 0, spctlStdout := [], createExit := 0 }

/-- A run whose extracted contents hold no `.app` entry. -/
def envNoBundle : Env :=
  { envBase with listing := ["README", "notes.txt"] }

/-- A run with verification requested and both `codesign` invocations
exiting zero; the captured verification output even contains the expected
marker text (as bytes). -/
def envVerifyOk : Env :=
  { envBase with verify := true,
                 codeVerStdout := asciiBytes "/tmp/t/contents/App.app: valid" }

/-- A run given both a fingerprint and a common name. -/
def envBoth : Env :=
  { envBase with signing_identity := some "Developer ID Application: Some One (TEAM)" }

/-- A run where the signing tool fails. -/
def envSignFail : Env :=
  { envBase with codesignExit := 1 }

/-- A run whose contents hold two `.app` entries. -/
def envTwoApps : Env :=
  { envBase with listing := ["README", "First.app", "Second.app"] }

/-- When an identity selector was given, the validation guard is not taken. -/
theorem guard_neg (env : Env) (hid : identityGiven env) :
    ¬ (¬ pyTruthy env.signing_identity = true ∧ ¬ pyTruthy env.sha1_hash = true) := by
  unfold identityGiven at hid
  tauto

/-- When an identity selector was given, `sha1_hash or signing_identity`
yields a string. -/
theorem pyOr_some_of_identityGiven (env : Env) (hid : identityGiven env) :
    ∃ s, pyOr env.sha1_hash env.signing_identity = some s := by
  unfold pyOr
  by_cases hs : pyTruthy env.sha1_hash = true
  · rw [if_pos hs]
    cases ha : env.sha1_hash with
    | none => rw [ha] at hs; simp [pyTruthy] at hs
    | some s => exact ⟨s, rfl⟩
  · rw [if_neg hs]
    rcases hid with h | h
    · cases hb : env.signing_identity with
      | none => rw [hb] at h; simp [pyTruthy] at h
      | some s => exact ⟨s, rfl⟩
    · exact absurd h hs

/-- `find?` over a list whose prefix contains no match picks the first
matching element. -/
theorem find?_append_first {α : Type} (p : α → Bool) (pre post : List α) (x : α)
    (hpre : ∀ y ∈ pre, p y = false) (hx : p x = true) :
    (pre ++ x :: post).find? p = some x := by
  induction pre with
  | nil => simp [List.find?, hx]
  | cons a as ih =>
      have ha : p a = false := hpre a (List.mem_cons_self a as)
      rw [List.cons_append, List.find?_cons_of_neg]
      · exact ih (fun y hy => hpre y (List.mem_cons_of_mem a hy))
      · simp [ha]

/-- Branch lemma: signing tool fails — the handler prints the error, removes
both temporary directories, and exits 1. -/
theorem sign_dmg_signFail (env : Env) (b idn : String) (hid : identityGiven env)
    (hloc : locatedBundle env = some b)
    (hidn : pyOr env.sha1_hash env.signing_identity = some idn)
    (hc : env.codesignExit ≠ 0) :
    sign_dmg env = (mountEvents env ++
      [Event.run (signArgs idn b),
       Event.print ("Error during codesign: " ++ cpeStr (signArgs idn b) env.codesignExit),
       Event.rmtree env.tempDir, Event.rmtree env.mountPoint],
     Outcome.exited 1) := by
  have hg := guard_neg env hid
  unfold sign_dmg
  rw [if_neg hg]
  simp [hloc, hidn, hc]

/-- Branch lemma: signing succeeds and verification is off — the output image
is created, both temporary directories are removed, exit 0. -/
theorem sign_dmg_ok_noVerify (env : Env) (b idn : String) (hid : identityGiven env)
    (hloc : locatedBundle env = some b)
    (hidn : pyOr env.sha1_hash env.signing_identity = some idn)
    (hc : env.codesignExit = 0) (hv : env.verify = false) :
    sign_dmg env = (mountEvents env ++
      [Event.run (signArgs idn b),
       Event.run (createArgs env),
       Event.rmtree env.tempDir, Event.rmtree env.mountPoint],
     Outcome.exited 0) := by
  have hg := guard_neg env hid
  unfold sign_dmg
  rw [if_neg hg]
  simp [hloc, hidn, hc, hv]

/-- Branch lemma: the verifying `codesign` exits non-zero — the
`CalledProcessError` handler prints, removes both temporary directories, and
exits 1. -/
theorem sign_dmg_verifyToolFail (env : Env) (b idn : String) (hid : identityGiven env)
    (hloc : locatedBundle env = some b)
    (hidn : pyOr env.sha1_hash env.signing_identity = some idn)
    (hc : env.codesignExit = 0) (hv : env.verify = true)
    (hcv : env.codeVerExit ≠ 0) :
    sign_dmg env = (mountEvents env ++
      [Event.run (signArgs idn b),
       Event.run (codesignVerifyArgs b),
       Event.print ("Error during codesign validation: " ++
         cpeStr (codesignVerifyArgs b) env.codeVerExit),
       Event.rmtree env.tempDir, Event.rmtree env.mountPoint],
     Outcome.exited 1) := by
  have hg := guard_neg env hid
  unfold sign_dmg
  rw [if_neg hg]
  simp [hloc, hidn, hc, hv, hcv]

/-- Branch lemma: the verifying `codesign` exits zero — `re.search` receives
a `str` pattern and `bytes` stdout and raises `TypeError`, which no handler
catches: the run crashes right there. -/
theorem sign_dmg_verifyCrash (env : Env) (b idn : String) (hid : identityGiven env)
    (hloc : locatedBundle env = some b)
    (hidn : pyOr env.sha1_hash env.signing_identity = some idn)
    (hc : env.codesignExit = 0) (hv : env.verify = true)
    (hcv : env.codeVerExit = 0) :
    sign_dmg env = (mountEvents env ++
      [Event.run (signArgs idn b),
       Event.run (codesignVerifyArgs b)],
     Outcome.crashed "TypeError") := by
  have hg := guard_neg env hid
  unfold sign_dmg
  rw [if_neg hg]
  simp [hloc, hidn, hc, hv, hcv, reSearch]

/-- Claim C4: if neither a certificate fingerprint nor a signing-identity
common name is provided (Python-falsy: absent or empty), the run is exactly
one usage-error print followed by exit status 1 — no temporary directory is
created and no external tool is invoked. -/
theorem C4_thm (env : Env) (hid : ¬ identityGiven env) :
    sign_dmg env =
      ([Event.print "Error: Either --signing-identity or --sha1-hash must be provided."],
       Outcome.exited 1) := by
  have hg : ¬ pyTruthy env.signing_identity = true ∧ ¬ pyTruthy env.sha1_hash = true := by
    unfold identityGiven at hid
    tauto
  unfold sign_dmg
  rw [if_pos hg]

/-- Witness for C4 at a concrete run (fingerprint given as the empty string,
no common name). -/
theorem C4_thm_witness :
    sign_dmg { envBase with sha1_hash := some "", signing_identity := none } =
      ([Event.print "Error: Either --signing-identity or --sha1-hash must be provided."],
       Outcome.exited 1) :=
  C4_thm { envBase with sha1_hash := some "", signing_identity := none } (by decide)

/-- Claim C6: when the copied contents contain no entry ending in `.app`, the
run prints the no-bundle error and exits 1 (and, incidentally, removes
nothing). -/
theorem C6_thm (env : Env) (hid : identityGiven env)
    (hnone : ∀ item ∈ env.listing, strEndsWith item ".app" = false) :
    sign_dmg env =
      (mountEvents env ++ [Event.print "No .app bundle found in the DMG."],
       Outcome.exited 1) := by
  have hloc : locatedBundle env = none := by
    unfold locatedBundle
    rw [List.find?_eq_none.mpr (fun x hx => by simp [hnone x hx])]
    rfl
  have hg := guard_neg env hid
  unfold sign_dmg
  rw [if_neg hg, hloc]

/-- Witness for C6 at a concrete run with no `.app` entry. -/
theorem C6_thm_witness :
    sign_dmg envNoBundle =
      (mountEvents envNoBundle ++ [Event.print "No .app bundle found in the DMG."],
       Outcome.exited 1) :=
  C6_thm envNoBundle (by decide) (by decide)

/-- Claim C3: with verification requested and the verifying `codesign`
exiting zero, the text-match step applies a `str` pattern to the captured
`bytes` output, so the run always crashes with a `TypeError` at that step:
the trace never contains an `spctl` policy check, an `hdiutil create`
invocation (no output image), or a directory removal. -/
theorem C3_thm (env : Env) (b : String) (hid : identityGiven env)
    (hloc : locatedBundle env = some b)
    (hv : env.verify = true) (hc : env.codesignExit = 0)
    (hcv : env.codeVerExit = 0) :
    (sign_dmg env).2 = Outcome.crashed "TypeError" ∧
      ∀ e ∈ (sign_dmg env).1,
        e.isSpctlRun = false ∧ e.isCreateRun = false ∧ e.isRmtree = false := by
  obtain ⟨idn, hidn⟩ := pyOr_some_of_identityGiven env hid
  rw [sign_dmg_verifyCrash env b idn hid hloc hidn hc hv hcv]
  refine ⟨rfl, ?_⟩
  intro e he
  simp [mountEvents] at he
  rcases he with h | h | h | h | h | h | h <;> subst h <;>
    simp [Event.isSpctlRun, Event.isCreateRun, Event.isRmtree,
      attachArgs, detachArgs, signArgs, codesignVerifyArgs]

/-- Witness for C3 at a concrete verifying run whose captured output even
contains the expected marker bytes. -/
theorem C3_thm_witness :
    (sign_dmg envVerifyOk).2 = Outcome.crashed "TypeError" ∧
      ∀ e ∈ (sign_dmg envVerifyOk).1,
        e.isSpctlRun = false ∧ e.isCreateRun = false ∧ e.isRmtree = false :=
  C3_thm envVerifyOk "/tmp/t/contents/App.app" (by decide) (by decide) rfl rfl rfl

/-- Claim C5: when the signing tool exits non-zero, the error is caught and
printed, both temporary directories are removed, no `hdiutil create`
invocation occurs (no output image is written), and the process exits 1. -/
theorem C5_thm (env : Env) (b idn : String) (hid : identityGiven env)
    (hloc : locatedBundle env = some b)
    (hidn : pyOr env.sha1_hash env.signing_identity = some idn)
    (hc : env.codesignExit ≠ 0) :
    (sign_dmg env).2 = Outcome.exited 1 ∧
      Event.print ("Error during codesign: " ++ cpeStr (signArgs idn b) env.codesignExit)
        ∈ (sign_dmg env).1 ∧
      Event.rmtree env.tempDir ∈ (sign_dmg env).1 ∧
      Event.rmtree env.mountPoint ∈ (sign_dmg env).1 ∧
      ∀ e ∈ (sign_dmg env).1, e.isCreateRun = false := by
  rw [sign_dmg_signFail env b idn hid hloc hidn hc]
  refine ⟨rfl, by simp, by simp, by simp, ?_⟩
  intro e he
  simp [mountEvents] at he
  rcases he with h | h | h | h | h | h | h | h | h <;> subst h <;>
    simp [Event.isCreateRun, attachArgs, detachArgs, signArgs]

/-- Witness for C5 at a concrete run whose signing tool exits 1. -/
theorem C5_thm_witness :
    (sign_dmg envSignFail).2 = Outcome.exited 1 ∧
      Event.print ("Error during codesign: " ++
          cpeStr (signArgs "ABCD" "/tmp/t/contents/App.app") envSignFail.codesignExit)
        ∈ (sign_dmg envSignFail).1 ∧
      Event.rmtree envSignFail.tempDir ∈ (sign_dmg envSignFail).1 ∧
      Event.rmtree envSignFail.mountPoint ∈ (sign_dmg envSignFail).1 ∧
      ∀ e ∈ (sign_dmg envSignFail).1, e.isCreateRun = false :=
  C5_thm envSignFail "/tmp/t/contents/App.app" "ABCD" (by decide) (by decide)
    (by decide) (by decide)

/-- Claim C7: when both the fingerprint and the common name are given
(truthy), the fingerprint is the identity handed to the signing tool: in
every downstream branch the trace contains the `codesign` invocation whose
`--sign` argument is the sha1 hash. -/
theorem C7_thm (env : Env) (s b : String) (hs : env.sha1_hash = some s)
    (hst : pyTruthy env.sha1_hash = true)
    (hit : pyTruthy env.signing_identity = true)
    (hloc : locatedBundle env = some b) :
    Event.run (signArgs s b) ∈ (sign_dmg env).1 := by
  have hid : identityGiven env := Or.inr hst
  have hidn : pyOr env.sha1_hash env.signing_identity = some s := by
    unfold pyOr
    rw [if_pos hst, hs]
  by_cases hc : env.codesignExit = 0
  · by_cases hv : env.verify = true
    · by_cases hcv : env.codeVerExit = 0
      · rw [sign_dmg_verifyCrash env b s hid hloc hidn hc hv hcv]; simp
      · rw [sign_dmg_verifyToolFail env b s hid hloc hidn hc hv hcv]; simp
    · simp at hv
      rw [sign_dmg_ok_noVerify env b s hid hloc hidn hc hv]; simp
  · rw [sign_dmg_signFail env b s hid hloc hidn hc]; simp

/-- Witness for C7 at a concrete run given both identity selectors. -/
theorem C7_thm_witness :
    Event.run (signArgs "ABCD" "/tmp/t/contents/App.app") ∈ (sign_dmg envBoth).1 :=
  C7_thm envBoth "ABCD" "/tmp/t/contents/App.app" rfl (by decide) (by decide) (by decide)

/-- Claim C8: the locator looks only at the listed immediate children of the
contents directory and selects the first entry, in listing order, whose name
ends in `.app`; the trace contains the signing invocation for exactly that
entry, and every signing invocation in the trace targets it. -/
theorem C8_thm (env : Env) (pre post : List String) (x idn : String)
    (hid : identityGiven env)
    (hidn : pyOr env.sha1_hash env.signing_identity = some idn)
    (hlist : env.listing = pre ++ x :: post)
    (hpre : ∀ y ∈ pre, strEndsWith y ".app" = false)
    (hx : strEndsWith x ".app" = true) :
    locatedBundle env = some (pjoin (pjoin env.tempDir "contents") x) ∧
      Event.run (signArgs idn (pjoin (pjoin env.tempDir "contents") x))
        ∈ (sign_dmg env).1 ∧
      ∀ t y, Event.run (signArgs t y) ∈ (sign_dmg env).1 →
        t = idn ∧ y = pjoin (pjoin env.tempDir "contents") x := by
  have hloc : locatedBundle env = some (pjoin (pjoin env.tempDir "contents") x) := by
    unfold locatedBundle
    rw [hlist, find?_append_first _ pre post x hpre hx]
    rfl
  refine ⟨hloc, ?_⟩
  by_cases hc : env.codesignExit = 0
  · by_cases hv : env.verify = true
    · by_cases hcv : env.codeVerExit = 0
      · rw [sign_dmg_verifyCrash env _ idn hid hloc hidn hc hv hcv]
        refine ⟨by simp, ?_⟩
        intro t y h
        simp [mountEvents, attachArgs, detachArgs, signArgs, codesignVerifyArgs] at h
        tauto
      · rw [sign_dmg_verifyToolFail env _ idn hid hloc hidn hc hv hcv]
        refine ⟨by simp, ?_⟩
        intro t y h
        simp [mountEvents, attachArgs, detachArgs, signArgs, codesignVerifyArgs] at h
        tauto
    · simp at hv
      rw [sign_dmg_ok_noVerify env _ idn hid hloc hidn hc hv]
      refine ⟨by simp, ?_⟩
      intro t y h
      simp [mountEvents, attachArgs, detachArgs, signArgs, createArgs] at h
      tauto
  · rw [sign_dmg_signFail env _ idn hid hloc hidn hc]
    refine ⟨by simp, ?_⟩
    intro t y h
    simp [mountEvents, attachArgs, detachArgs, signArgs] at h
    tauto

/-- Witness for C8 at a concrete run whose contents hold two `.app`
entries: only the first is signed. -/
theorem C8_thm_witness :
    locatedBundle envTwoApps =
        some (pjoin (pjoin envTwoApps.tempDir "contents") "First.app") ∧
      Event.run (signArgs "ABCD" (pjoin (pjoin envTwoApps.tempDir "contents") "First.app"))
        ∈ (sign_dmg envTwoApps).1 ∧
      ∀ t y, Event.run (signArgs t y) ∈ (sign_dmg envTwoApps).1 →
        t = "ABCD" ∧ y = pjoin (pjoin envTwoApps.tempDir "contents") "First.app" :=
  C8_thm envTwoApps ["README"] ["Second.app"] "First.app" "ABCD" (by decide)
    (by decide) rfl (by decide) (by decide)

/-- Claim C9: on the success path the repackaging invocation is `hdiutil
create -volname <input basename, extension stripped> -srcfolder
<tempdir>/contents -ov -format UDZO <output path>` — compressed read-only
format `UDZO`, overwrite flag `-ov` — and the run exits 0. -/
theorem C9_thm (env : Env) (b idn : String) (hid : identityGiven env)
    (hloc : locatedBundle env = some b)
    (hidn : pyOr env.sha1_hash env.signing_identity = some idn)
    (hc : env.codesignExit = 0) (hv : env.verify = false) :
    Event.run ["hdiutil", "create", "-volname", splitextRoot (basename env.input_dmg),
        "-srcfolder", pjoin env.tempDir "contents", "-ov", "-format", "UDZO",
        env.output_dmg] ∈ (sign_dmg env).1 ∧
      (sign_dmg env).2 = Outcome.exited 0 := by
  rw [sign_dmg_ok_noVerify env b idn hid hloc hidn hc hv]
  exact ⟨by simp [createArgs], rfl⟩

/-- Witness for C9 at a concrete successful run (`input.dmg` gives volume
name `input`). -/
theorem C9_thm_witness :
    Event.run ["hdiutil", "create", "-volname", splitextRoot (basename envBase.input_dmg),
        "-srcfolder", pjoin envBase.tempDir "contents", "-ov", "-format", "UDZO",
        envBase.output_dmg] ∈ (sign_dmg envBase).1 ∧
      (sign_dmg envBase).2 = Outcome.exited 0 :=
  C9_thm envBase "/tmp/t/contents/App.app" "ABCD" (by decide) (by decide)
    (by decide) rfl rfl

/-- Claim C1, counterexample: in a run whose extracted contents hold no
`.app` entry, both temporary directories are created, yet no removal at all
appears in the trace when the process exits — the claimed on-every-path
cleanup fails on the no-bundle branch. -/
theorem C1_counterexample :
    Event.mkdtemp "/tmp/m" ∈ (sign_dmg envNoBundle).1 ∧
      Event.mkdtemp "/tmp/t" ∈ (sign_dmg envNoBundle).1 ∧
      (∀ e ∈ (sign_dmg envNoBundle).1, e.isRmtree = false) ∧
      (sign_dmg envNoBundle).2 = Outcome.exited 1 := by
  decide

/-- Claim C1, amended: both temporary directories are removed before exit on
the success path and on the handled failure paths — signing-tool failure and
verification-tool failure — but not on the no-bundle branch (and not on the
verification text-match crash). -/
theorem C1_amended_thm (env : Env) (b : String) (hid : identityGiven env)
    (hloc : locatedBundle env = some b)
    (hpath : env.verify = false ∨ env.codesignExit ≠ 0 ∨ env.codeVerExit ≠ 0) :
    Event.rmtree env.tempDir ∈ (sign_dmg env).1 ∧
      Event.rmtree env.mountPoint ∈ (sign_dmg env).1 := by
  obtain ⟨idn, hidn⟩ := pyOr_some_of_identityGiven env hid
  by_cases hc : env.codesignExit = 0
  · rcases hpath with hv | hc2 | hcv
    · rw [sign_dmg_ok_noVerify env b idn hid hloc hidn hc hv]
      constructor <;> simp
    · exact absurd hc hc2
    · by_cases hv : env.verify = true
      · rw [sign_dmg_verifyToolFail env b idn hid hloc hidn hc hv hcv]
        constructor <;> simp
      · simp at hv
        rw [sign_dmg_ok_noVerify env b idn hid hloc hidn hc hv]
        constructor <;> simp
  · rw [sign_dmg_signFail env b idn hid hloc hidn hc]
    constructor <;> simp

/-- Witness for the amended C1 at a concrete successful run. -/
theorem C1_amended_witness :
    Event.rmtree envBase.tempDir ∈ (sign_dmg envBase).1 ∧
      Event.rmtree envBase.mountPoint ∈ (sign_dmg envBase).1 :=
  C1_amended_thm envBase "/tmp/t/contents/App.app" (by decide) (by decide) (Or.inl rfl)

/-- Claim C2, evaluation at the failing input: verification requested, both
`codesign` invocations exit zero, and the captured output even contains the
expected marker as bytes; yet the run crashes with an uncaught `TypeError` —
nothing is printed and neither temporary directory is removed, instead of the
claimed report, cleanup, and orderly non-zero exit. -/
theorem C2_code_bug :
    (sign_dmg envVerifyOk).2 = Outcome.crashed "TypeError" ∧
      ∀ e ∈ (sign_dmg envVerifyOk).1, e.isPrint = false ∧ e.isRmtree = false := by
  decide

/-- Claim C10: the exit statuses of `hdiutil attach`, `hdiutil detach`, and
`hdiutil create` are never consulted: altering any of them changes neither
the trace nor the outcome of the run — the pipeline proceeds to the next
step regardless. -/
theorem C10_thm (env : Env) (a d c : Nat) :
    sign_dmg { env with attachExit := a, detachExit := d, createExit := c } =
      sign_dmg env := rfl

end SignDmg
